import Mathlib

/-!
Verification of the till compiler (lexer engine, scope/type checker and
x86-64 code generator) against its natural-language specification.

The definitions below are a shallow embedding of the Rust sources:
  * `lexing`   embeds src/lexing/lexer.rs
  * `checking` embeds src/checking/checker.rs (types from src/checking/mod.rs)
  * `codegen`  embeds src/codegen/genelf64.rs (and the `execute` driver of
    src/codegen/mod.rs)

Rust `Vec` values become Lean lists; `String` stays `String`; `HashMap`
lookup (which the source unwraps, panicking on a missing key) becomes a
total function; stream positions are modelled as the count of characters
consumed so far; iterator `next` methods become explicit state-passing
functions; `panic!`/`unimplemented!` points are modelled by a dedicated
result constructor.
-/

namespace lexing

/-- Position within a character stream, modelled as the number of characters
consumed so far (the source tracks an opaque displayable position). -/
abbrev Position := Nat

/-- Parse policy of a lexing state: emit a fixed token, emit a token computed
from the lexeme, or mark the state invalid (no token can be produced). -/
inductive Parse (Token : Type) where
  | to (tok : Token)
  | byFunction (f : String → Token)
  | invalid

/-- Criteria by which a transition matches the peeked character. -/
inductive Match where
  | byChar (expected : Char)
  | byChars (possible : List Char)
  | byFunction (f : Char → Bool)
  | any

/-- Destination of a transition: remain in the current state or jump to the
state with the given key. -/
inductive Dest (Key : Type) where
  | toSelf
  | to (key : Key)

/-- A transition out of a lexing state. The destination field is named `to`
in the source; Lean reserves that token, so it is called `dest` here. -/
structure Transition (Key : Type) where
  match_by : Match
  dest : Dest Key

/-- A lexing state: a parse policy plus an ordered transition list. -/
structure State (Key Token : Type) where
  parse : Parse Token
  transitions : List (Transition Key)

/-- A lexer: state map, initial state key and ignored-character set. The
source stores the states in a `HashMap` and unwraps lookups (panicking on an
undefined state key); we model the map as a total function. -/
structure Lexer (Key Token : Type) where
  states : Key → State Key Token
  initial_state_key : Key
  ignored : List Char

/-- A produced token: payload, raw lexeme and stream position. -/
structure LexToken (Token : Type) where
  tok : Token
  lexeme : String
  pos : Position
deriving DecidableEq

/-- Lexical failure: an unexpected character stopped the scan, or the stream
ended while in a state that produces no token. -/
inductive LexFailure where
  | unexpectedChar (chr : Char) (lexeme : String) (pos : Position)
  | unexpectedEof (lexeme : String) (pos : Position)
deriving DecidableEq

/-- Embeds `transition_state` of lexer.rs: find the first transition in order
whose match predicate accepts `chr` and return the resulting state key. -/
def transition_state {Key : Type} (current_key : Key)
    (transitions : List (Transition Key)) (chr : Char) : Option Key :=
  match transitions with
  | [] => none
  | t :: rest =>
    let should_transition : Bool :=
      match t.match_by with
      | .byChar expected => chr == expected
      | .byChars possible => possible.contains chr
      | .byFunction f => f chr
      | .any => true
    if should_transition then
      match t.dest with
      | .to new_key => some new_key
      | .toSelf => some current_key
    else transition_state current_key rest chr

/-- How the per-token scanning loop stopped: end of stream, or a character
that matched no transition and could not be ignored. -/
inductive ScanStop where
  | eof
  | unexpected (chr : Char)
deriving DecidableEq

/-- Outcome of the scanning loop of `LexTokenIterator::next`: final state
key, accumulated lexeme, stream position reached, stop reason and the
remaining (unconsumed) stream. -/
structure ScanOut (Key : Type) where
  key : Key
  lexeme : String
  pos : Position
  stop : ScanStop
  rest : List Char

/-- Embeds the `while let Some(chr) = self.strm.peek()` loop of
`LexTokenIterator::next`: follow matching transitions (consuming and
appending each matched character), skip ignored characters while in the
initial state, and stop at the first character that does neither (or at the
end of the stream). -/
def scan {Key Token : Type} [DecidableEq Key] (lxr : Lexer Key Token)
    (current_key : Key) (lexeme : String) (pos : Position) :
    List Char → ScanOut Key
  | [] => ⟨current_key, lexeme, pos, .eof, []⟩
  | chr :: rest =>
    match transition_state current_key (lxr.states current_key).transitions chr with
    | some new_key => scan lxr new_key (lexeme.push chr) (pos + 1) rest
    | none =>
      if chr ∈ lxr.ignored ∧ current_key = lxr.initial_state_key then
        scan lxr current_key lexeme (pos + 1) rest
      else
        ⟨current_key, lexeme, pos, .unexpected chr, chr :: rest⟩

/-- Character recorded in the source's `unexpected_char` variable when the
scan stopped (none when the stream simply ended). -/
def ScanStop.char? : ScanStop → Option Char
  | .eof => none
  | .unexpected chr => some chr

/-- Embeds `parse_lexeme` of lexer.rs: convert a lexeme into a token using
the final state's parse policy, or build the appropriate failure. -/
def parse_lexeme {Key Token : Type} (lexeme : String) (next_chr : Option Char)
    (pos : Position) (final_state : State Key Token) :
    Except LexFailure (LexToken Token) :=
  let potential_tok : Option Token :=
    match final_state.parse with
    | .to tok => some tok
    | .byFunction f => some (f lexeme)
    | .invalid => none
  match potential_tok with
  | some tok => .ok ⟨tok, lexeme, pos⟩
  | none =>
    .error (match next_chr with
            | some chr => .unexpectedChar chr lexeme pos
            | none => .unexpectedEof lexeme pos)

/-- Embeds `LexTokenIterator::next`: scan one token attempt from the stream;
an empty lexeme yields `none` (end of the token stream), otherwise the final
state's parse policy decides between a token and a failure. Returns the
yielded item together with the remaining stream and the new position. -/
def lexNext {Key Token : Type} [DecidableEq Key] (lxr : Lexer Key Token)
    (strm : List Char) (pos : Position) :
    Option (Except LexFailure (LexToken Token)) × List Char × Position :=
  let out := scan lxr lxr.initial_state_key ("") pos strm
  if out.lexeme.isEmpty then (none, out.rest, out.pos)
  else (some (parse_lexeme out.lexeme out.stop.char? out.pos (lxr.states out.key)),
        out.rest, out.pos)

end lexing

namespace checking

/-- Primitive till types `Char`, `Num` and `Bool` (the source's
`checking::Type`; `Type` is reserved in Lean). -/
inductive Ty where
  | char
  | num
  | bool
deriving DecidableEq

/-- Checking failures as declared in checker.rs (this module's own `Failure`
enumeration, distinct from the one in checking/mod.rs). -/
inductive Failure where
  | variableNotInScope (ident : String)
  | functionNotInScope (ident : String) (params : List Ty)
  | voidFunctionInExpr (ident : String) (params : List Ty)
  | unexpectedType (expected : Ty) (encountered : Ty)
deriving DecidableEq

/-- Definition of a variable with a given identifier and type. -/
structure VariableDef where
  identifier : String
  var_type : Ty
deriving DecidableEq

/-- Definition of a function: identifier, parameter-type vector and optional
return type. -/
structure FunctionDef where
  identifier : String
  parameter_types : List Ty
  return_type : Option Ty
deriving DecidableEq

/-- A lexical scope: the variable and function definitions it introduced. -/
structure Scope where
  variable_defs : List VariableDef
  function_defs : List FunctionDef
deriving DecidableEq

/-- Modelled from the spec: the parser's expression tree (the `parsing`
module is not part of the provided sources). Positions are opaque stream
positions (modelled as `Nat`); the `Array` payload is "not yet defined" in
the spec, so the variant carries none. -/
inductive Expression where
  | variable (pos : Nat) (identifier : String)
  | functionCall (pos : Nat) (identifier : String) (args : List Expression)
  | add (left : Expression) (right : Expression)
  | subtract (left : Expression) (right : Expression)
  | multiply (left : Expression) (right : Expression)
  | divide (left : Expression) (right : Expression)
  | greaterThan (left : Expression) (right : Expression)
  | lessThan (left : Expression) (right : Expression)
  | equal (left : Expression) (right : Expression)
  | booleanNot (inner : Expression)
  | unaryMinus (inner : Expression)
  | numberLiteral (pos : Nat) (value : Float)
  | booleanLiteral (pos : Nat) (value : Bool)
  | charLiteral (pos : Nat) (value : Char)
  | stringLiteral (pos : Nat) (value : String)
  | array

/-- Modelled from the spec: the parser's statement tree. Only `If` and
`While` are inspected by the checker; the remaining variants (function
definition, variable declaration, assignment, return) carry the shapes the
spec describes. -/
inductive Statement where
  | ifStmt (condition : Expression) (block : List Statement)
  | whileStmt (condition : Expression) (block : List Statement)
  | functionDefinition (identifier : String) (parameters : List (String × Ty))
      (returnType : Option Ty) (body : List Statement)
  | variableDeclaration (identifier : String) (varType : Ty)
      (initialValue : Option Expression)
  | assignment (identifier : String) (value : Expression)
  | returnStmt (value : Option Expression)

/-- Result of a checking step. `unimpl` models a Rust `unimplemented!()`
panic (the source aborts there; no `Err` is returned). -/
inductive CheckResult (α : Type) where
  | ok (value : α)
  | err (e : Failure)
  | unimpl
deriving DecidableEq

/-- Embeds `Scope::find_variable_def`: first definition in insertion order
with a matching identifier. -/
def Scope.find_variable_def (scope : Scope) (ident : String) : Option VariableDef :=
  scope.variable_defs.find? (fun d => d.identifier == ident)

/-- Embeds `Scope::find_function_def`: first definition in insertion order
whose identifier and parameter-type vector both match exactly. -/
def Scope.find_function_def (scope : Scope) (ident : String) (params : List Ty) :
    Option FunctionDef :=
  scope.function_defs.find? (fun d => d.identifier == ident && d.parameter_types == params)

/-- The scope stack. The Rust `Vec` pushes the innermost scope at its end
and lookups iterate in reverse; we keep the innermost scope at the list
head, so lookups iterate front to back. -/
abbrev ScopeStack := List Scope

/-- Embeds `Checker::begin_new_scope`. -/
def begin_new_scope (stk : ScopeStack) : ScopeStack :=
  ⟨[], []⟩ :: stk

/-- Embeds `Checker::end_scope` (`Vec::pop` of the innermost scope). -/
def end_scope (stk : ScopeStack) : ScopeStack :=
  stk.tail

/-- Embeds `Checker::variable_lookup`: scan scopes innermost first. -/
def variable_lookup : ScopeStack → String → Except Failure VariableDef
  | [], ident => .error (.variableNotInScope ident)
  | scope :: rest, ident =>
    match scope.find_variable_def ident with
    | some var_def => .ok var_def
    | none => variable_lookup rest ident

/-- Embeds `Checker::function_lookup`: scan scopes innermost first, matching
identifier and exact parameter-type vector. -/
def function_lookup : ScopeStack → String → List Ty → Except Failure FunctionDef
  | [], ident, params => .error (.functionNotInScope ident params)
  | scope :: rest, ident, params =>
    match scope.find_function_def ident params with
    | some func_def => .ok func_def
    | none => function_lookup rest ident params

/-- Embeds `Checker::introduce_variable`: push a definition onto the
innermost scope (the source unwraps that scope; an empty stack would
panic). -/
def introduce_variable (stk : ScopeStack) (ident : String) (var_type : Ty) : ScopeStack :=
  match stk with
  | [] => []
  | scope :: rest =>
    { scope with variable_defs := scope.variable_defs ++ [⟨ident, var_type⟩] } :: rest

/-- Embeds `Checker::introduce_function`: push a definition onto the
innermost scope. -/
def introduce_function (stk : ScopeStack) (ident : String) (params : List Ty)
    (return_type : Option Ty) : ScopeStack :=
  match stk with
  | [] => []
  | scope :: rest =>
    { scope with function_defs := scope.function_defs ++ [⟨ident, params, return_type⟩] } :: rest

/-- Second half of `Checker::expect_expr_type`, split out on the computed
result so that `check_expr` below remains structurally recursive: require
the given type, else fail with `UnexpectedType`. -/
def expect_type (result : CheckResult Ty) (expected : Ty) : CheckResult Unit :=
  match result with
  | .ok expr_type =>
    if expr_type = expected then .ok ()
    else .err (.unexpectedType expected expr_type)
  | .err e => .err e
  | .unimpl => .unimpl

mutual

/-- Embeds `Checker::check_expr`: compute the type of an expression against
the scope stack (the checker borrows the stack immutably here). `Array` and
`StringLiteral` hit `unimplemented!()` in the source. Calls of
`Checker::expect_expr_type` appear as `expect_type (check_expr ..)`. -/
def check_expr (stk : ScopeStack) : Expression → CheckResult Ty
  | .variable _pos identifier =>
    match variable_lookup stk identifier with
    | .ok definition => .ok definition.var_type
    | .error e => .err e
  | .functionCall _pos identifier args =>
    match check_args stk args with
    | .ok arg_types =>
      match function_lookup stk identifier arg_types with
      | .ok definition =>
        match definition.return_type with
        | some return_type => .ok return_type
        | none => .err (.voidFunctionInExpr identifier arg_types)
      | .error e => .err e
    | .err e => .err e
    | .unimpl => .unimpl
  | .add left right | .subtract left right | .multiply left right | .divide left right =>
    match expect_type (check_expr stk left) .num with
    | .ok _ =>
      match expect_type (check_expr stk right) .num with
      | .ok _ => .ok .num
      | .err e => .err e
      | .unimpl => .unimpl
    | .err e => .err e
    | .unimpl => .unimpl
  | .greaterThan left right | .lessThan left right =>
    match expect_type (check_expr stk left) .num with
    | .ok _ =>
      match expect_type (check_expr stk right) .num with
      | .ok _ => .ok .bool
      | .err e => .err e
      | .unimpl => .unimpl
    | .err e => .err e
    | .unimpl => .unimpl
  | .equal left right =>
    match check_expr stk left with
    | .ok left_type =>
      match check_expr stk right with
      | .ok right_type =>
        if left_type = right_type then .ok .bool
        else .err (.unexpectedType left_type right_type)
      | .err e => .err e
      | .unimpl => .unimpl
    | .err e => .err e
    | .unimpl => .unimpl
  | .booleanNot inner =>
    match expect_type (check_expr stk inner) .bool with
    | .ok _ => .ok .bool
    | .err e => .err e
    | .unimpl => .unimpl
  | .unaryMinus inner =>
    match expect_type (check_expr stk inner) .num with
    | .ok _ => .ok .num
    | .err e => .err e
    | .unimpl => .unimpl
  | .array => .unimpl
  | .stringLiteral _pos _value => .unimpl
  | .numberLiteral _pos _value => .ok .num
  | .booleanLiteral _pos _value => .ok .bool
  | .charLiteral _pos _value => .ok .char

/-- Embeds the argument-typing loop of the `FunctionCall` arm of
`Checker::check_expr`: check each argument left to right, collecting the
type vector, propagating the first failure. -/
def check_args (stk : ScopeStack) : List Expression → CheckResult (List Ty)
  | [] => .ok []
  | arg :: rest =>
    match check_expr stk arg with
    | .ok arg_type =>
      match check_args stk rest with
      | .ok rest_types => .ok (arg_type :: rest_types)
      | .err e => .err e
      | .unimpl => .unimpl
    | .err e => .err e
    | .unimpl => .unimpl

end

/-- Embeds `Checker::expect_expr_type`: type the expression and require the
given type, else fail with `UnexpectedType`. Definitionally equal to the
inlined `expect_type (check_expr ..)` calls inside `check_expr`. -/
def expect_expr_type (stk : ScopeStack) (expr : Expression) (expected : Ty) :
    CheckResult Unit :=
  expect_type (check_expr stk expr) expected

mutual

/-- Embeds `Checker::check_stmt`. Only `If` and `While` are implemented; any
other statement hits `unimplemented!()`. The scope stack is threaded
explicitly (the source mutates `self.scope_stack`); the body of
`Checker::check_block` (open a fresh scope, check the block's statements,
close the scope on success — the `?` early return skips `end_scope` on
failure) is inlined here so the recursion stays structural; `check_block`
below packages it again. -/
def check_stmt (stk : ScopeStack) : Statement → CheckResult Unit × ScopeStack
  | .ifStmt condition block | .whileStmt condition block =>
    match expect_type (check_expr stk condition) .bool with
    | .ok _ =>
      match check_stmt_list (begin_new_scope stk) block with
      | (.ok _, stk1) => (.ok (), end_scope stk1)
      | (.err e, stk1) => (.err e, stk1)
      | (.unimpl, stk1) => (.unimpl, stk1)
    | .err e => (.err e, stk)
    | .unimpl => (.unimpl, stk)
  | .functionDefinition _ _ _ _ => (.unimpl, stk)
  | .variableDeclaration _ _ _ => (.unimpl, stk)
  | .assignment _ _ => (.unimpl, stk)
  | .returnStmt _ => (.unimpl, stk)

/-- Embeds the `for stmt in block { self.check_stmt(stmt)? }` loop of
`Checker::check_block`. -/
def check_stmt_list (stk : ScopeStack) : List Statement → CheckResult Unit × ScopeStack
  | [] => (.ok (), stk)
  | stmt :: rest =>
    match check_stmt stk stmt with
    | (.ok _, stk1) => check_stmt_list stk1 rest
    | (.err e, stk1) => (.err e, stk1)
    | (.unimpl, stk1) => (.unimpl, stk1)

end

/-- Embeds `Checker::check_block`: open a fresh scope, check each statement,
close the scope on success. The returned block type is always `none`
(a TODO in the source). -/
def check_block (stk : ScopeStack) (block : List Statement) :
    CheckResult (Option Ty) × ScopeStack :=
  match check_stmt_list (begin_new_scope stk) block with
  | (.ok _, stk1) => (.ok none, end_scope stk1)
  | (.err e, stk1) => (.err e, stk1)
  | (.unimpl, stk1) => (.unimpl, stk1)

/-- Embeds the statement-processing of `Checker::next` over a whole input:
each statement is checked in turn (an `Err` is yielded and processing
continues); an `unimplemented!()` panic aborts the run, in which case the
end-of-input teardown is never reached and the final stack is `none`. -/
def checker_results (stk : ScopeStack) : List Statement →
    List (CheckResult Unit) × Option ScopeStack
  | [] => ([], some stk)
  | stmt :: rest =>
    match check_stmt stk stmt with
    | (.unimpl, _) => ([.unimpl], none)
    | (.ok _, stk1) =>
      let (results, final) := checker_results stk1 rest
      (.ok () :: results, final)
    | (.err e, stk1) =>
      let (results, final) := checker_results stk1 rest
      (.err e :: results, final)

/-- Embeds a full `Checker` run: `Checker::new` pushes the program scope
onto an empty stack; the statements are then drawn from the iterator; at
end-of-input the program scope is popped and the source asserts that the
stack is empty. The second component is that assertion's outcome (`none`
when a panic aborted the run before end-of-input). -/
def checker_run (stmts : List Statement) : List (CheckResult Unit) × Option Bool :=
  match checker_results (begin_new_scope []) stmts with
  | (results, some stk_end) => (results, some (end_scope stk_end).isEmpty)
  | (results, none) => (results, none)

end checking

namespace codegen

/-- IR values as consumed by genelf64.rs (`checking::Value`). The `Num`
payload is Rust's `f64`; it is kept as the type parameter `F`, since the
generator never inspects it other than to format it for the assembly text. -/
inductive Value (F : Type) where
  | variable (id : Nat)
  | num (value : F)
  | char (value : Char)
  | bool (value : Bool)

/-- IR instructions exactly as pattern-matched by
`GenerateElf64::handle_instruction` in genelf64.rs (the checking/mod.rs in
this snapshot declares a different revision of the enumeration; the
generator is the authority for the shape it consumes). IDs are `usize`. -/
inductive IRInstruction (F : Type) where
  | allocate (id : Nat)
  | push (value : Value F)
  | store (id : Nat)
  | parameter (store_in : Nat) (param_number : Nat)
  | label (id : Nat)
  | function (id : Nat)
  | callExpectingVoid (id : Nat)
  | callExpectingValue (id : Nat)
  | returnVoid
  | returnValue
  | display (value_type : checking.Ty) (line_number : Nat)
  | jump (id : Nat)
  | jumpIfTrue (id : Nat)
  | jumpIfFalse (id : Nat)
  | equals
  | greaterThan
  | lessThan
  | add
  | subtract
  | multiply
  | divide
  | not

/-- Registers referenced by the generator. -/
inductive Reg where
  | Rax
  | Ax
  | Bx
  | Rdx
  | StackPointer
  | BasePointer
  | DestIndex
  | SrcIndex

/-- Immediate values: integers (`isize`) or floats (`f64`, the parameter
`F`). Constructor names are lowercased to avoid clashing with the payload
types. -/
inductive Val (F : Type) where
  | int (x : Int)
  | float (x : F)

/-- Assembly operands (the source spells the name `Oprand`). -/
inductive Oprand (F : Type) where
  | Label (x : String)
  | Value (x : Val F)
  | Register (x : Reg)
  | Address (inner : Oprand F)
  | AddressDisplaced (inner : Oprand F) (displacement : Nat)

/-- Assembly instructions (the private `Instruction` enumeration of
genelf64.rs). -/
inductive Instruction (F : Type) where
  | Comment (x : String)
  | Section (x : String)
  | Extern (x : String)
  | Global (x : String)
  | Label (x : String)
  | Declare (x : Val F)
  | DeclareString (x : String)
  | Syscall
  | Mov (dest : Oprand F) (src : Oprand F)
  | Add (dest : Oprand F) (src : Oprand F)
  | Sub (dest : Oprand F) (src : Oprand F)
  | Push (x : Oprand F)
  | Pop (x : Oprand F)
  | FpuPush (x : Oprand F)
  | FpuPop (x : Oprand F)
  | FpuStatusReg (x : Oprand F)
  | FpuReset
  | FpuCompare
  | FpuAdd
  | FpuSubtract
  | FpuMultiply
  | FpuDivide
  | Reserve
  | Ret (x : Nat)
  | Call (x : String)
  | Jmp (x : String)
  | Shr (dest : Oprand F) (shift_by : Nat)
  | BitwiseAnd (dest : Oprand F) (src : Oprand F)
  | BitwiseOr (dest : Oprand F) (src : Oprand F)
  | BitwiseNot (x : Oprand F)
  | PushFlags
  | Cmp (dest : Oprand F) (src : Oprand F)
  | Je (x : String)
  | Jne (x : String)

/-- Embeds `label` of genelf64.rs. -/
def label (id : Nat) : String := "label" ++ toString id

/-- Embeds `func_label` of genelf64.rs. -/
def func_label (id : Nat) : String := "func" ++ toString id

/-- Embeds `var_label` of genelf64.rs. -/
def var_label (id : Nat) : String := "var" ++ toString id

/-- Embeds `literal_label` of genelf64.rs. -/
def literal_label (counter : Nat) : String := "literal" ++ toString counter

/-- Intel syntax for registers. -/
def Reg.intel_syntax : Reg → String
  | .Rax => "rax"
  | .Ax => "ax"
  | .Bx => "bx"
  | .Rdx => "rdx"
  | .StackPointer => "rsp"
  | .BasePointer => "rbp"
  | .DestIndex => "rdi"
  | .SrcIndex => "rsi"

/-- Intel syntax for immediate values; `fmt` models Rust's 16-fractional-
digit float formatting (an external library behaviour). -/
def Val.intel_syntax {F : Type} (fmt : F → String) : Val F → String
  | .int x => toString x
  | .float x => fmt x

/-- Intel syntax for operands. -/
def Oprand.intel_syntax {F : Type} (fmt : F → String) : Oprand F → String
  | .Label x => x
  | .Value x => x.intel_syntax fmt
  | .Register x => x.intel_syntax
  | .Address inner => "[" ++ inner.intel_syntax fmt ++ "]"
  | .AddressDisplaced inner displacement =>
    "[" ++ inner.intel_syntax fmt ++ " + " ++ toString displacement ++ "]"

/-- Intel syntax for assembly instructions, one output line each. -/
def Instruction.intel_syntax {F : Type} (fmt : F → String) : Instruction F → String
  | .Comment x => "; " ++ x ++ "\n"
  | .Section x => "section ." ++ x ++ "\n"
  | .Extern x => "extern " ++ x ++ "\n"
  | .Global x => "global " ++ x ++ "\n"
  | .Label x => x ++ ":\n"
  | .Declare x => "dq " ++ x.intel_syntax fmt ++ "\n"
  | .DeclareString x => "db `" ++ x ++ "`\n"
  | .Syscall => "syscall\n"
  | .Mov dest src => "mov " ++ dest.intel_syntax fmt ++ ", " ++ src.intel_syntax fmt ++ "\n"
  | .Add dest src => "add " ++ dest.intel_syntax fmt ++ ", " ++ src.intel_syntax fmt ++ "\n"
  | .Sub dest src => "sub " ++ dest.intel_syntax fmt ++ ", " ++ src.intel_syntax fmt ++ "\n"
  | .Push x => "push qword " ++ x.intel_syntax fmt ++ "\n"
  | .Pop x => "pop qword " ++ x.intel_syntax fmt ++ "\n"
  | .FpuPush x => "fld qword " ++ x.intel_syntax fmt ++ "\n"
  | .FpuPop x => "fst qword " ++ x.intel_syntax fmt ++ "\n"
  | .FpuStatusReg x => "fstsw " ++ x.intel_syntax fmt ++ "\n"
  | .FpuReset => "finit\n"
  | .FpuCompare => "fcom\n"
  | .FpuAdd => "fadd\n"
  | .FpuSubtract => "fsub\n"
  | .FpuMultiply => "fmul\n"
  | .FpuDivide => "fdiv\n"
  | .Reserve => "resq 1\n"
  | .Ret x => "ret " ++ toString x ++ "\n"
  | .Call x => "call " ++ x ++ "\n"
  | .Jmp x => "jmp " ++ x ++ "\n"
  | .Shr dest shift_by => "shr " ++ dest.intel_syntax fmt ++ ", " ++ toString shift_by ++ "\n"
  | .BitwiseAnd dest src => "and qword " ++ dest.intel_syntax fmt ++ ", " ++ src.intel_syntax fmt ++ "\n"
  | .BitwiseOr dest src => "or qword " ++ dest.intel_syntax fmt ++ ", " ++ src.intel_syntax fmt ++ "\n"
  | .BitwiseNot x => "not qword " ++ x.intel_syntax fmt ++ "\n"
  | .PushFlags => "pushf\n"
  | .Cmp dest src => "cmp " ++ dest.intel_syntax fmt ++ ", " ++ src.intel_syntax fmt ++ "\n"
  | .Je x => "je " ++ x ++ "\n"
  | .Jne x => "jne " ++ x ++ "\n"

/-- Concatenation of the Intel-syntax lines of a section (the source maps
`intel_syntax` over the final vector and joins with the empty separator). -/
def render_section {F : Type} (fmt : F → String) : List (Instruction F) → String
  | [] => ""
  | instr :: rest => instr.intel_syntax fmt ++ render_section fmt rest

/-- Embeds `GenerateElf64::RETURN_INSTRUCTIONS`. -/
def RETURN_INSTRUCTIONS (F : Type) : List (Instruction F) :=
  [.Pop (.Register .BasePointer), .Ret 16]

/-- Embeds `POP_AND_CMP_WITH_ZERO_INSTRUCTIONS`. -/
def POP_AND_CMP_WITH_ZERO_INSTRUCTIONS (F : Type) : List (Instruction F) :=
  [.Pop (.Register .Rax), .Cmp (.Register .Rax) (.Value (.int 0))]

/-- Generator state: the three section vectors and the literal counter. -/
structure GenerateElf64 (F : Type) where
  text_section : List (Instruction F)
  bss_section : List (Instruction F)
  rodata_section : List (Instruction F)
  num_label_counter : Nat

/-- Embeds `Generator::TARGET_NAME` for `GenerateElf64`. -/
def TARGET_NAME : String := "Linux elf64"

/-- Embeds `GenerateElf64::new`: the `.text` section opens with a target
comment, the section header, `extern printf`, `global main` and the `main`
label; `.bss` and `.rodata` open with their section headers. -/
def GenerateElf64.new (F : Type) : GenerateElf64 F :=
  { text_section := [
      .Comment ("Target: " ++ TARGET_NAME),
      .Section ("text"),
      .Extern ("printf"),
      .Global ("main"),
      .Label ("main")],
    bss_section := [.Section ("bss")],
    rodata_section := [.Section ("rodata")],
    num_label_counter := 0 }

/-- Embeds `GenerateElf64::two_stack_items_to_fpu_stack`. -/
def two_stack_items_to_fpu_stack {F : Type} (g : GenerateElf64 F) : GenerateElf64 F :=
  { g with text_section := g.text_section ++ [
      .FpuReset,
      .FpuPush (.AddressDisplaced (.Register .StackPointer) 8),
      .FpuPush (.Address (.Register .StackPointer)),
      .Add (.Register .StackPointer) (.Value (.int 8))] }

/-- Embeds `GenerateElf64::add_arithmetic_instructions`. -/
def add_arithmetic_instructions {F : Type} (g : GenerateElf64 F)
    (operation : Instruction F) : GenerateElf64 F :=
  let g1 := two_stack_items_to_fpu_stack g
  { g1 with text_section := g1.text_section ++ [
      operation,
      .FpuPop (.Address (.Register .StackPointer))] }

/-- Embeds `GenerateElf64::add_comparison_instructions`. -/
def add_comparison_instructions {F : Type} (g : GenerateElf64 F)
    (operations : List (Instruction F)) : GenerateElf64 F :=
  let g1 := two_stack_items_to_fpu_stack g
  { g1 with text_section := g1.text_section ++ [
      .FpuCompare,
      .FpuStatusReg (.Register .Ax)]
      ++ operations ++ [
      .BitwiseAnd (.Register .Rax) (.Value (.int 1)),
      .Mov (.Address (.Register .StackPointer)) (.Register .Rax)] }

/-- Embeds `GenerateElf64::handle_instruction`. -/
def handle_instruction {F : Type} (g : GenerateElf64 F) :
    IRInstruction F → GenerateElf64 F
  | .allocate id =>
    { g with bss_section := g.bss_section ++ [.Label (var_label id), .Reserve] }
  | .push val =>
    match val with
    | .num num_val =>
      let lbl := literal_label g.num_label_counter
      { g with
        num_label_counter := g.num_label_counter + 1,
        rodata_section := g.rodata_section ++ [.Label lbl, .Declare (.float num_val)],
        text_section := g.text_section ++ [.Push (.Address (.Label lbl))] }
    | .variable var_id =>
      { g with text_section := g.text_section ++ [.Push (.Address (.Label (var_label var_id)))] }
    | .char chr_val =>
      { g with text_section := g.text_section ++ [.Push (.Value (.int chr_val.toNat))] }
    | .bool bool_val =>
      { g with text_section := g.text_section ++
          [.Push (.Value (.int (if bool_val then 1 else 0)))] }
  | .store id =>
    { g with text_section := g.text_section ++ [.Pop (.Address (.Label (var_label id)))] }
  | .parameter store_in param_number =>
    { g with text_section := g.text_section ++ [
        .Mov (.Register .Rax)
          (.AddressDisplaced (.Register .StackPointer) (16 + param_number * 8)),
        .Mov (.Address (.Label (var_label store_in))) (.Register .Rax)] }
  | .label id =>
    { g with text_section := g.text_section ++ [.Label (label id)] }
  | .function id =>
    { g with text_section := g.text_section ++ [
        .Label (func_label id),
        .Push (.Register .BasePointer),
        .Mov (.Register .BasePointer) (.Register .StackPointer)] }
  | .callExpectingVoid id =>
    { g with text_section := g.text_section ++ [.Call (func_label id)] }
  | .callExpectingValue id =>
    { g with text_section := g.text_section ++ [
        .Call (func_label id),
        .Push (.Register .Rax)] }
  | .returnVoid =>
    { g with text_section := g.text_section ++ RETURN_INSTRUCTIONS F }
  | .returnValue =>
    { g with text_section := g.text_section ++ [.Pop (.Register .Rax)]
        ++ RETURN_INSTRUCTIONS F }
  | .display _value_type line_number =>
    { g with text_section := g.text_section ++ [
        .Mov (.Register .DestIndex) (.Label ("display_char")),
        .Mov (.Register .SrcIndex) (.Value (.int line_number)),
        .Pop (.Register .Rdx),
        .Mov (.Register .Ax) (.Value (.int 0)),
        .Call ("printf")] }
  | .jump id =>
    { g with text_section := g.text_section ++ [.Jmp (label id)] }
  | .jumpIfTrue id =>
    { g with text_section := g.text_section ++ POP_AND_CMP_WITH_ZERO_INSTRUCTIONS F
        ++ [.Jne (label id)] }
  | .jumpIfFalse id =>
    { g with text_section := g.text_section ++ POP_AND_CMP_WITH_ZERO_INSTRUCTIONS F
        ++ [.Je (label id)] }
  | .equals =>
    { g with text_section := g.text_section ++ [
        .Pop (.Register .Rax),
        .Sub (.Register .Rax) (.Address (.Register .StackPointer)),
        .PushFlags,
        .Pop (.Register .Ax),
        .Shr (.Register .Ax) 6,
        .BitwiseAnd (.Register .Rax) (.Value (.int 1)),
        .Mov (.Address (.Register .StackPointer)) (.Register .Rax)] }
  | .add => add_arithmetic_instructions g .FpuAdd
  | .subtract => add_arithmetic_instructions g .FpuSubtract
  | .multiply => add_arithmetic_instructions g .FpuMultiply
  | .divide => add_arithmetic_instructions g .FpuDivide
  | .greaterThan =>
    add_comparison_instructions g [.Shr (.Register .Ax) 8]
  | .lessThan =>
    add_comparison_instructions g [
      .Mov (.Register .Bx) (.Register .Ax),
      .Shr (.Register .Ax) 8,
      .Shr (.Register .Bx) 14,
      .BitwiseOr (.Register .Ax) (.Register .Bx),
      .BitwiseNot (.Register .Ax)]
  | .not =>
    { g with text_section := g.text_section ++ [
        .BitwiseNot (.Address (.Register .StackPointer)),
        .BitwiseAnd (.Address (.Register .StackPointer)) (.Value (.int 1))] }

/-- Embeds `GenerateElf64::construct_output`: append the `main` terminator
to `.text` and the `display_char` format string to `.rodata`, then
concatenate `.text`, `.bss` and `.rodata` and render to assembly text. -/
def construct_output {F : Type} (fmt : F → String) (g : GenerateElf64 F) : String :=
  let text1 := g.text_section ++ [
    .Mov (.Register .Rax) (.Value (.int 0)),
    .Ret 0]
  let rodata1 := g.rodata_section ++ [
    .Label ("display_char"),
    .DeclareString ("Line %u display (Char type): %c\\n\\0")]
  render_section fmt (text1 ++ g.bss_section ++ rodata1)

/-- Embeds `Generator::execute` (codegen/mod.rs) for `GenerateElf64`: fold
`handle_instruction` over the whole IR vector, then build the output. -/
def execute {F : Type} (fmt : F → String) (instructions : List (IRInstruction F)) : String :=
  construct_output fmt (instructions.foldl handle_instruction (GenerateElf64.new F))

end codegen

/-- Whether a statement is one of the two constructs `Checker::check_stmt`
implements (`If` and `While`); everything else hits `unimplemented!()`. -/
def checking.Statement.isIfOrWhile : checking.Statement → Bool
  | .ifStmt _ _ => true
  | .whileStmt _ _ => true
  | _ => false

/-- Concrete two-state lexer configuration: the initial state 0 moves to
state 1 on the character a; state 1 has no transitions and cannot produce a
token (`Invalid` parse policy). Nothing is ignored. -/
def invalidLexer : lexing.Lexer Nat Nat :=
  { states := fun key =>
      if key = 0 then ⟨.invalid, [⟨.byChar ('a'), .to 1⟩]⟩ else ⟨.invalid, []⟩,
    initial_state_key := 0,
    ignored := [] }

/-- Concrete two-state lexer configuration whose accepting state 1 emits the
token 5; spaces are ignored (only from the initial state 0). -/
def emitLexer : lexing.Lexer Nat Nat :=
  { states := fun key =>
      if key = 0 then ⟨.invalid, [⟨.byChar ('a'), .to 1⟩]⟩ else ⟨.to 5, []⟩,
    initial_state_key := 0,
    ignored := [' '] }

/-- Scope stack holding the single program scope after introducing the
function `xyz([Char]) -> Num` (the spec's function-overload scenario). -/
def xyzStack : checking.ScopeStack :=
  checking.introduce_function (checking.begin_new_scope []) ("xyz") [.char] (some .num)

namespace checking

/-- Lookup in a scope stack succeeds exactly when some accessible scope
holds a function definition matching both the identifier and the exact
parameter-type vector. -/
theorem function_lookup_ok_iff (stk : ScopeStack) (ident : String) (params : List Ty) :
    (∃ d, function_lookup stk ident params = .ok d) ↔
      ∃ sc ∈ stk, ∃ d ∈ sc.function_defs,
        d.identifier = ident ∧ d.parameter_types = params := by
  induction stk with
  | nil => simp [function_lookup]
  | cons sc rest ih =>
    cases hf : sc.find_function_def ident params with
    | some d =>
      simp only [function_lookup, hf]
      constructor
      · intro _
        have hmem : d ∈ sc.function_defs := List.mem_of_find?_eq_some hf
        have hp := List.find?_some hf
        simp only [Bool.and_eq_true, beq_iff_eq] at hp
        exact ⟨sc, List.mem_cons_self sc rest, d, hmem, hp.1, hp.2⟩
      · intro _
        exact ⟨d, rfl⟩
    | none =>
      have hnone : ∀ d ∈ sc.function_defs,
          ¬(d.identifier = ident ∧ d.parameter_types = params) := by
        intro d hd hcontra
        have := List.find?_eq_none.mp hf d hd
        simp only [Bool.and_eq_true, beq_iff_eq] at this
        exact this hcontra
      simp only [function_lookup, hf]
      rw [ih]
      constructor
      · rintro ⟨sc1, hsc1, d, hd, hid, hpar⟩
        exact ⟨sc1, List.mem_cons_of_mem sc hsc1, d, hd, hid, hpar⟩
      · rintro ⟨sc1, hsc1, d, hd, hid, hpar⟩
        rcases List.mem_cons.mp hsc1 with heq | hmem
        · exact absurd ⟨hid, hpar⟩ (hnone d (heq ▸ hd))
        · exact ⟨sc1, hmem, d, hd, hid, hpar⟩

/-- C1: Function lookup succeeds if and only if some accessible scope
contains a function definition whose identifier and parameter-type vector
both match exactly; after introducing `xyz([Char]) -> Num`, looking up
`(xyz, [Char])` returns that definition with return type `Num`, while
looking up `(xyz, [Num])` fails with the function-undefined error (the
checker's `FunctionNotInScope` failure). -/
theorem C1_function_lookup_exact_key :
    (∀ (stk : ScopeStack) (ident : String) (params : List Ty),
       (∃ d, function_lookup stk ident params = .ok d) ↔
         ∃ sc ∈ stk, ∃ d ∈ sc.function_defs,
           d.identifier = ident ∧ d.parameter_types = params)
    ∧ function_lookup xyzStack ("xyz") [.char] = .ok ⟨("xyz"), [.char], some .num⟩
    ∧ function_lookup xyzStack ("xyz") [.num] =
        .error (.functionNotInScope ("xyz") [.num]) :=
  ⟨function_lookup_ok_iff, rfl, rfl⟩

/-- Concrete instantiation of `C1_function_lookup_exact_key`: the successful
lookup of `(xyz, [Char])` exhibits a matching definition in an accessible
scope. -/
theorem C1_function_lookup_exact_key_witness :
    ∃ sc ∈ xyzStack, ∃ d ∈ sc.function_defs,
      d.identifier = ("xyz") ∧ d.parameter_types = [Ty.char] :=
  (C1_function_lookup_exact_key.1 xyzStack ("xyz") [.char]).mp
    ⟨⟨("xyz"), [.char], some .num⟩, rfl⟩

/-- C2: `check_expr (Equal a b)` yields `Bool` exactly when both sides
type-check to the same type; when both succeed with different types the
result is `UnexpectedType` with `expected` the left type and `encountered`
the right type. -/
theorem C2_equal_same_type :
    ∀ (stk : ScopeStack) (a b : Expression),
      (check_expr stk (.equal a b) = .ok .bool ↔
        ∃ t, check_expr stk a = .ok t ∧ check_expr stk b = .ok t)
      ∧ (∀ ta tb, check_expr stk a = .ok ta → check_expr stk b = .ok tb →
          ta ≠ tb →
          check_expr stk (.equal a b) = .err (.unexpectedType ta tb)) := by
  intro stk a b
  constructor
  · constructor
    · intro h
      cases ha : check_expr stk a with
      | ok ta =>
        cases hb : check_expr stk b with
        | ok tb =>
          by_cases hteq : ta = tb
          · exact ⟨ta, rfl, by rw [hteq]⟩
          · simp [check_expr, ha, hb, hteq] at h
        | err e => simp [check_expr, ha, hb] at h
        | unimpl => simp [check_expr, ha, hb] at h
      | err e => simp [check_expr, ha] at h
      | unimpl => simp [check_expr, ha] at h
    · rintro ⟨t, ha, hb⟩
      simp [check_expr, ha, hb]
  · intro ta tb ha hb hne
    simp [check_expr, ha, hb, hne]

/-- Concrete instantiation of `C2_equal_same_type`: comparing a `Char`
literal with a `Bool` literal reports `UnexpectedType` with the left type
expected and the right type encountered. -/
theorem C2_equal_same_type_witness :
    check_expr (begin_new_scope []) (.equal (.charLiteral 0 ('x')) (.booleanLiteral 0 false))
      = .err (.unexpectedType .char .bool) :=
  (C2_equal_same_type (begin_new_scope []) (.charLiteral 0 ('x'))
      (.booleanLiteral 0 false)).2 .char .bool rfl rfl (by decide)

/-- C5: checking `Divide(CharLiteral x, BooleanLiteral false)` reports
`UnexpectedType` expecting `Num` and encountering `Char`: the left operand
of an arithmetic operator is checked before the right, so with both
operands non-`Num` the error carries the left operand's type. -/
theorem C5_divide_left_checked_first :
    (∀ (stk : ScopeStack) (left right : Expression) (left_type : Ty),
       check_expr stk left = .ok left_type → left_type ≠ .num →
       check_expr stk (.divide left right) = .err (.unexpectedType .num left_type))
    ∧ check_expr (begin_new_scope [])
        (.divide (.charLiteral 0 ('x')) (.booleanLiteral 0 false))
        = .err (.unexpectedType .num .char) := by
  constructor
  · intro stk left right left_type h hne
    simp [check_expr, expect_type, h, hne]
  · decide

/-- Concrete instantiation of `C5_divide_left_checked_first`: a `Divide`
whose left operand is a `Bool` literal fails with expected `Num`,
encountered `Bool`, regardless of the right operand. -/
theorem C5_divide_left_checked_first_witness :
    check_expr [] (.divide (.booleanLiteral 0 true) (.numberLiteral 0 1.0))
      = .err (.unexpectedType .num .bool) :=
  C5_divide_left_checked_first.1 [] (.booleanLiteral 0 true) (.numberLiteral 0 1.0)
    .bool rfl (by decide)

/-- C10: the checker is partial at its interface: `check_stmt` hits
`unimplemented!()` (modelled by `unimpl`) for every statement other than
`If` and `While`, and `check_expr` hits it on `Array` and `StringLiteral`
expressions. -/
theorem C10_checker_partial :
    (∀ (stk : ScopeStack) (s : Statement),
       s.isIfOrWhile = false → check_stmt stk s = (.unimpl, stk))
    ∧ (∀ (stk : ScopeStack) (pos : Nat) (value : String),
        check_expr stk (.stringLiteral pos value) = .unimpl)
    ∧ (∀ stk : ScopeStack, check_expr stk .array = .unimpl) := by
  refine ⟨?_, fun _ _ _ => rfl, fun _ => rfl⟩
  intro stk s h
  cases s with
  | ifStmt condition block => simp [Statement.isIfOrWhile] at h
  | whileStmt condition block => simp [Statement.isIfOrWhile] at h
  | functionDefinition a b c d => rfl
  | variableDeclaration a b c => rfl
  | assignment a b => rfl
  | returnStmt a => rfl

/-- Concrete instantiation of `C10_checker_partial`: a return statement at
the checker's interface panics rather than yielding `Ok` or `Err`. -/
theorem C10_checker_partial_witness :
    check_stmt (begin_new_scope []) (.returnStmt none) = (.unimpl, begin_new_scope []) :=
  C10_checker_partial.1 (begin_new_scope []) (.returnStmt none) rfl

mutual

/-- Checking a statement successfully leaves the scope stack exactly as it
was (every scope the statement opened has been closed again). -/
theorem check_stmt_ok_stack (s : Statement) (stk : ScopeStack)
    (h : (check_stmt stk s).1 = .ok ()) : (check_stmt stk s).2 = stk := by
  cases s with
  | ifStmt condition block =>
    cases hc : expect_type (check_expr stk condition) .bool with
    | ok u =>
      rcases hl : check_stmt_list (begin_new_scope stk) block with ⟨r, stk1⟩
      cases r with
      | ok v =>
        have h1 : stk1 = begin_new_scope stk := by
          have := check_stmt_list_ok_stack block (begin_new_scope stk) (by rw [hl])
          rw [hl] at this
          exact this
        simp only [check_stmt, hc, hl, h1]
        simp [end_scope, begin_new_scope]
      | err e => simp [check_stmt, hc, hl] at h
      | unimpl => simp [check_stmt, hc, hl] at h
    | err e => simp [check_stmt, hc] at h
    | unimpl => simp [check_stmt, hc] at h
  | whileStmt condition block =>
    cases hc : expect_type (check_expr stk condition) .bool with
    | ok u =>
      rcases hl : check_stmt_list (begin_new_scope stk) block with ⟨r, stk1⟩
      cases r with
      | ok v =>
        have h1 : stk1 = begin_new_scope stk := by
          have := check_stmt_list_ok_stack block (begin_new_scope stk) (by rw [hl])
          rw [hl] at this
          exact this
        simp only [check_stmt, hc, hl, h1]
        simp [end_scope, begin_new_scope]
      | err e => simp [check_stmt, hc, hl] at h
      | unimpl => simp [check_stmt, hc, hl] at h
    | err e => simp [check_stmt, hc] at h
    | unimpl => simp [check_stmt, hc] at h
  | functionDefinition a b c d => simp [check_stmt] at h
  | variableDeclaration a b c => simp [check_stmt] at h
  | assignment a b => simp [check_stmt] at h
  | returnStmt a => simp [check_stmt] at h

/-- Checking a list of statements successfully leaves the scope stack
exactly as it was. -/
theorem check_stmt_list_ok_stack (l : List Statement) (stk : ScopeStack)
    (h : (check_stmt_list stk l).1 = .ok ()) : (check_stmt_list stk l).2 = stk := by
  cases l with
  | nil => rfl
  | cons s rest =>
    rcases hcs : check_stmt stk s with ⟨r, stk1⟩
    cases r with
    | ok u =>
      have h1 : stk1 = stk := by
        have := check_stmt_ok_stack s stk (by rw [hcs])
        rw [hcs] at this
        exact this
      rw [h1] at hcs
      have h2 : (check_stmt_list stk rest).1 = .ok () := by
        have heq : check_stmt_list stk (s :: rest) = check_stmt_list stk rest := by
          simp [check_stmt_list, hcs]
        rw [heq] at h
        exact h
      have h3 := check_stmt_list_ok_stack rest stk h2
      simp [check_stmt_list, hcs, h3]
    | err e => simp [check_stmt_list, hcs] at h
    | unimpl => simp [check_stmt_list, hcs] at h

end

/-- When every yielded checking result of a statement sequence is `Ok`, the
run reaches end-of-input with the scope stack it started from. -/
theorem checker_results_all_ok (stmts : List Statement) :
    ∀ stk : ScopeStack,
      (∀ r ∈ (checker_results stk stmts).1, r = .ok ()) →
      (checker_results stk stmts).2 = some stk := by
  induction stmts with
  | nil => intro stk _; rfl
  | cons s rest ih =>
    intro stk h
    rcases hcs : check_stmt stk s with ⟨r, stk1⟩
    cases r with
    | ok u =>
      have h1 : stk1 = stk := by
        have := check_stmt_ok_stack s stk (by rw [hcs])
        rw [hcs] at this
        exact this
      rw [h1] at hcs
      rcases hre : checker_results stk rest with ⟨results2, final2⟩
      have htail : ∀ r ∈ results2, r = .ok () := by
        intro r hr
        apply h
        simp [checker_results, hcs, hre]
        exact Or.inr hr
      have hres2 := ih stk (by rw [hre]; exact htail)
      rw [hre] at hres2
      simp [checker_results, hcs, hre, hres2]
    | err e =>
      exfalso
      have : CheckResult.err e = CheckResult.ok () := by
        apply h
        simp [checker_results, hcs]
      exact CheckResult.noConfusion this
    | unimpl =>
      exfalso
      have : CheckResult.unimpl = CheckResult.ok () := by
        apply h
        simp [checker_results, hcs]
      exact CheckResult.noConfusion this

/-- C6: a single program scope is pushed at construction and popped at
end-of-input; for every accepted program (all yielded results `Ok`) the
end-of-input pop leaves the scope stack empty, so the source's assertion
holds. -/
theorem C6_program_scope_assertion :
    ∀ stmts : List Statement,
      (∀ r ∈ (checker_run stmts).1, r = .ok ()) →
      (checker_run stmts).2 = some true := by
  intro stmts h
  rcases hres : checker_results (begin_new_scope []) stmts with ⟨results, final⟩
  have hall : ∀ r ∈ results, r = .ok () := by
    intro r hr
    apply h
    cases final <;> simp [checker_run, hres] <;> exact hr
  have := checker_results_all_ok stmts (begin_new_scope []) (by rw [hres]; exact hall)
  rw [hres] at this
  simp only [Option.some.injEq] at this
  cases final with
  | none => exact absurd this (by simp)
  | some stk_end =>
    have hstk : stk_end = begin_new_scope [] := by
      simpa using this
    simp only [checker_run, hres]
    simp [hstk, end_scope, begin_new_scope]

/-- Concrete instantiation of `C6_program_scope_assertion`: a program
consisting of one accepted `while` statement ends with an empty scope stack
after the program scope is popped. -/
theorem C6_program_scope_assertion_witness :
    (checker_run [.whileStmt (.booleanLiteral 0 true) []]).2 = some true :=
  C6_program_scope_assertion [.whileStmt (.booleanLiteral 0 true) []] (by decide)

end checking

/-- C4: a peeked character that matches no transition of the current state
is consumed without being appended to the lexeme when it is in the ignored
set and the current state is the initial state; in every other situation
the scan stops there and records it as the unexpected character. -/
theorem C4_ignored_only_in_initial_state :
    ∀ {Key Token : Type} [DecidableEq Key] (lxr : lexing.Lexer Key Token)
      (current_key : Key) (lexeme : String) (pos : lexing.Position)
      (chr : Char) (rest : List Char),
      lexing.transition_state current_key (lxr.states current_key).transitions chr = none →
      ((chr ∈ lxr.ignored ∧ current_key = lxr.initial_state_key →
          lexing.scan lxr current_key lexeme pos (chr :: rest)
            = lexing.scan lxr current_key lexeme (pos + 1) rest)
       ∧ (¬(chr ∈ lxr.ignored ∧ current_key = lxr.initial_state_key) →
          lexing.scan lxr current_key lexeme pos (chr :: rest)
            = ⟨current_key, lexeme, pos, .unexpected chr, chr :: rest⟩)) := by
  intro Key Token inst lxr current_key lexeme pos chr rest h
  constructor
  · intro hc
    obtain ⟨hci, hck⟩ := hc
    subst hck
    simp [lexing.scan, h, hci]
  · intro hc
    simp [lexing.scan, h, hc]

/-- Concrete instantiation of `C4_ignored_only_in_initial_state`: a space is
skipped (consumed, not appended) while in the initial state of the example
lexer configuration. -/
theorem C4_ignored_only_in_initial_state_witness :
    lexing.scan emitLexer 0 ("") 0 [' '] = lexing.scan emitLexer 0 ("") 1 [] :=
  (C4_ignored_only_in_initial_state emitLexer 0 ("") 0 ' ' [] rfl).1 (by decide)

/-- C3: finalization of a token attempt. With an empty lexeme the iterator
yields `none`; with a non-empty lexeme the final state's parse policy
decides: `Emit`/`EmitBy` yield `Ok` with the token and lexeme, and
`Invalid` yields `UnexpectedChar` when an unmatched character stopped the
scan or `UnexpectedEof` when the stream ended. -/
theorem C3_finalize_by_parse_policy :
    ∀ {Key Token : Type} [DecidableEq Key] (lxr : lexing.Lexer Key Token)
      (strm : List Char) (pos : lexing.Position) (out : lexing.ScanOut Key),
      lexing.scan lxr lxr.initial_state_key ("") pos strm = out →
      (out.lexeme = ("") → lexing.lexNext lxr strm pos = (none, out.rest, out.pos))
      ∧ (out.lexeme ≠ ("") →
          (∀ tok, (lxr.states out.key).parse = .to tok →
              lexing.lexNext lxr strm pos
                = (some (.ok ⟨tok, out.lexeme, out.pos⟩), out.rest, out.pos))
          ∧ (∀ f, (lxr.states out.key).parse = .byFunction f →
              lexing.lexNext lxr strm pos
                = (some (.ok ⟨f out.lexeme, out.lexeme, out.pos⟩), out.rest, out.pos))
          ∧ ((lxr.states out.key).parse = .invalid →
              (∀ chr, out.stop = .unexpected chr →
                  lexing.lexNext lxr strm pos
                    = (some (.error (.unexpectedChar chr out.lexeme out.pos)),
                       out.rest, out.pos))
              ∧ (out.stop = .eof →
                  lexing.lexNext lxr strm pos
                    = (some (.error (.unexpectedEof out.lexeme out.pos)),
                       out.rest, out.pos)))) := by
  intro Key Token inst lxr strm pos out hout
  subst hout
  refine ⟨fun he => ?_,
          fun hne => ⟨fun tok hp => ?_, fun f hp => ?_,
                      fun hp => ⟨fun chr hs => ?_, fun hs => ?_⟩⟩⟩ <;>
    simp [lexing.lexNext, lexing.parse_lexeme, lexing.ScanStop.char?,
          String.isEmpty_iff, *]

/-- Concrete instantiation of `C3_finalize_by_parse_policy`: the example
emitting lexer turns the lexeme a into token 5 through its `Emit` policy. -/
theorem C3_finalize_by_parse_policy_witness :
    lexing.lexNext emitLexer ['a'] 0 = (some (.ok ⟨5, ("a"), 1⟩), [], 1) :=
  ((C3_finalize_by_parse_policy emitLexer ['a'] 0
      (lexing.scan emitLexer emitLexer.initial_state_key ("") 0 ['a']) rfl).2
    (by decide)).1 5 rfl

/-- Whenever the scanning loop stops on an unexpected character, that
character is left unconsumed at the head of the remaining stream. -/
theorem scan_unexpected_head {Key Token : Type} [DecidableEq Key]
    (lxr : lexing.Lexer Key Token) :
    ∀ (strm : List Char) (k : Key) (lx : String) (p : lexing.Position) (chr : Char),
      (lexing.scan lxr k lx p strm).stop = .unexpected chr →
      ∃ t, (lexing.scan lxr k lx p strm).rest = chr :: t := by
  intro strm
  induction strm with
  | nil =>
    intro k lx p chr h
    simp [lexing.scan] at h
  | cons c rest ih =>
    intro k lx p chr h
    cases ht : lexing.transition_state k (lxr.states k).transitions c with
    | some nk =>
      simp only [lexing.scan, ht] at h ⊢
      exact ih nk (lx.push c) (p + 1) chr h
    | none =>
      simp only [lexing.scan, ht] at h ⊢
      by_cases hi : c ∈ lxr.ignored ∧ k = lxr.initial_state_key
      · rw [if_pos hi] at h ⊢
        exact ih k lx (p + 1) chr h
      · rw [if_neg hi] at h ⊢
        simp at h
        exact ⟨rest, by simp [h]⟩

/-- C9 counterexample: with the concrete `invalidLexer` configuration on
input aa, the first call yields `Err(UnexpectedChar)` leaving the stream at
the second a, and the very next call consumes that character and yields
`Some(Err(UnexpectedEof))` — not `None`, and the stream position moves. -/
theorem C9_error_then_none_counterexample :
    lexing.lexNext invalidLexer ['a', 'a'] 0
        = (some (.error (.unexpectedChar 'a' ("a") 1)), ['a'], 1)
    ∧ lexing.lexNext invalidLexer ['a'] 1
        = (some (.error (.unexpectedEof ("a") 2)), [], 2)
    ∧ (some (Except.error (lexing.LexFailure.unexpectedEof ("a") 2)) ≠
        (none : Option (Except lexing.LexFailure (lexing.LexToken Nat)))) :=
  ⟨rfl, rfl, by simp⟩

/-- C9 (amended): after the iterator yields `Err(UnexpectedChar(chr, ..))`,
the stopping character `chr` is left unconsumed at the front of the
remaining stream; the next call simply rescans from the initial state, and
may therefore consume further input and yield further items rather than
always yielding `None`. -/
theorem C9_error_leaves_unexpected_char_unconsumed :
    ∀ {Key Token : Type} [DecidableEq Key] (lxr : lexing.Lexer Key Token)
      (strm : List Char) (pos : lexing.Position) (chr : Char) (lexeme : String)
      (p posAfter : lexing.Position) (rest : List Char),
      lexing.lexNext lxr strm pos
        = (some (.error (.unexpectedChar chr lexeme p)), rest, posAfter) →
      ∃ t, rest = chr :: t := by
  intro Key Token inst lxr strm pos chr lexeme p posAfter rest h
  have hscan := scan_unexpected_head lxr strm lxr.initial_state_key ("") pos chr
  rcases hs : lexing.scan lxr lxr.initial_state_key ("") pos strm with ⟨k, lx, p0, stop, rest0⟩
  rw [hs] at hscan
  simp only [lexing.lexNext, hs] at h
  by_cases hlx : lx.isEmpty
  · simp [hlx] at h
  · simp only [hlx, if_neg, Bool.false_eq_true, reduceIte] at h
    obtain ⟨h1, h2, _⟩ := Prod.mk.injEq .. ▸ h
    replace h1 := Option.some.inj h1
    match hp : (lxr.states k).parse with
    | .to tok => simp [lexing.parse_lexeme, hp] at h1
    | .byFunction f => simp [lexing.parse_lexeme, hp] at h1
    | .invalid =>
      cases hstop : stop with
      | eof => simp [lexing.parse_lexeme, hp, hstop, lexing.ScanStop.char?] at h1
      | unexpected c =>
        simp only [lexing.parse_lexeme, hp, hstop, lexing.ScanStop.char?,
          Except.error.injEq, lexing.LexFailure.unexpectedChar.injEq] at h1
        obtain ⟨hc, _, _⟩ := h1
        obtain ⟨t, ht⟩ := hscan (by rw [hstop, hc])
        exact ⟨t, ht⟩

/-- Concrete instantiation of
`C9_error_leaves_unexpected_char_unconsumed`: after the first failing call
on input aa, the unexpected second a is still at the head of the stream. -/
theorem C9_error_leaves_unexpected_char_unconsumed_witness :
    ∃ t, (lexing.lexNext invalidLexer ['a', 'a'] 0).2.1 = 'a' :: t :=
  C9_error_leaves_unexpected_char_unconsumed invalidLexer ['a', 'a'] 0 'a'
    ("a") 1 1 ['a'] rfl

namespace codegen

/-- Rendering distributes over concatenation of section vectors. -/
theorem render_section_append {F : Type} (fmt : F → String)
    (a b : List (Instruction F)) :
    render_section fmt (a ++ b) = render_section fmt a ++ render_section fmt b := by
  induction a with
  | nil => rfl
  | cons i a ih => simp [render_section, ih, String.append_assoc]

/-- Handling one IR instruction only appends to the three section vectors. -/
theorem handle_instruction_sections_prefix {F : Type} (g : GenerateElf64 F)
    (i : IRInstruction F) :
    g.text_section <+: (handle_instruction g i).text_section
    ∧ g.bss_section <+: (handle_instruction g i).bss_section
    ∧ g.rodata_section <+: (handle_instruction g i).rodata_section := by
  cases i <;>
    first
      | (cases ‹Value F› <;>
          refine ⟨?_, ?_, ?_⟩ <;>
            simp [handle_instruction, List.prefix_append, List.prefix_refl])
      | (refine ⟨?_, ?_, ?_⟩ <;>
          simp [handle_instruction, add_arithmetic_instructions,
            add_comparison_instructions, two_stack_items_to_fpu_stack,
            RETURN_INSTRUCTIONS, POP_AND_CMP_WITH_ZERO_INSTRUCTIONS,
            List.append_assoc, List.prefix_append, List.prefix_refl])

/-- Folding the generator over any IR vector only appends to the three
section vectors created by `GenerateElf64::new`. -/
theorem foldl_sections_prefix {F : Type} (ir : List (IRInstruction F)) :
    ∀ g : GenerateElf64 F,
      g.text_section <+: (ir.foldl handle_instruction g).text_section
      ∧ g.bss_section <+: (ir.foldl handle_instruction g).bss_section
      ∧ g.rodata_section <+: (ir.foldl handle_instruction g).rodata_section := by
  induction ir with
  | nil => exact fun g => ⟨List.prefix_rfl, List.prefix_rfl, List.prefix_rfl⟩
  | cons i rest ih =>
    intro g
    obtain ⟨h1, h2, h3⟩ := handle_instruction_sections_prefix g i
    obtain ⟨t1, t2, t3⟩ := ih (handle_instruction g i)
    exact ⟨h1.trans t1, h2.trans t2, h3.trans t3⟩

end codegen

/-- C7: for every IR vector the generator emits one assembly string laid out
as the `.text` chunk (a target comment, the `section .text` header, the
`printf` extern and `main` global declarations and the `main` label,
followed by the translated instructions and the appended `mov rax, 0` and
`ret 0` terminator), then the `.bss` chunk opened by `section .bss`, then
the `.rodata` chunk opened by `section .rodata` and ending with the
appended `display_char` format string. -/
theorem C7_output_section_layout :
    ∀ {F : Type} (fmt : F → String) (ir : List (codegen.IRInstruction F)),
      ∃ t b r : String,
        codegen.execute fmt ir =
          ("; Target: Linux elf64\nsection .text\nextern printf\nglobal main\nmain:\n")
          ++ (t ++ (("mov rax, 0\nret 0\n")
          ++ (("section .bss\n") ++ (b
          ++ (("section .rodata\n") ++ (r
          ++ ("display_char:\ndb `Line %u display (Char type): %c\\n\\0`\n"))))))) := by
  intro F fmt ir
  obtain ⟨⟨t0, ht⟩, ⟨b0, hb⟩, ⟨r0, hr⟩⟩ :=
    codegen.foldl_sections_prefix ir (codegen.GenerateElf64.new F)
  refine ⟨codegen.render_section fmt t0, codegen.render_section fmt b0,
    codegen.render_section fmt r0, ?_⟩
  simp only [codegen.execute, codegen.construct_output]
  rw [← ht, ← hb, ← hr]
  simp only [codegen.render_section_append, List.append_assoc, String.append_assoc]
  rfl

/-- C8: lowering `Parameter{store_in, param_number}` appends to `.text`
exactly a read of the stack slot `[rsp + 16 + 8·param_number]` into `rax`
followed by a store of `rax` into the variable slot labeled
`var{store_in}`, leaving the other sections untouched; rendered at concrete
arguments this is `mov rax, [rsp + 32]` then `mov [var3], rax`. -/
theorem C8_parameter_lowering :
    (∀ {F : Type} (g : codegen.GenerateElf64 F) (store_in param_number : Nat),
      codegen.handle_instruction g (.parameter store_in param_number)
        = { g with text_section := g.text_section ++
            [.Mov (.Register .Rax)
                (.AddressDisplaced (.Register .StackPointer) (16 + param_number * 8)),
             .Mov (.Address (.Label (codegen.var_label store_in))) (.Register .Rax)] })
    ∧ codegen.render_section (fun _ : Unit => ("")) [
        .Mov (.Register .Rax) (.AddressDisplaced (.Register .StackPointer) (16 + 2 * 8)),
        .Mov (.Address (.Label (codegen.var_label 3))) (.Register .Rax)]
        = ("mov rax, [rsp + 32]\n" ++ "mov [var3], rax\n") :=
  ⟨fun _ _ _ => rfl, rfl⟩

/-- Concrete instantiation of `C7_output_section_layout` at the empty IR
vector: the three sections are still emitted in order with their headers
and finalization. -/
theorem C7_output_section_layout_witness :
    ∃ t b r : String,
      codegen.execute (fun _ : Unit => ("")) [] =
        ("; Target: Linux elf64\nsection .text\nextern printf\nglobal main\nmain:\n")
        ++ (t ++ (("mov rax, 0\nret 0\n")
        ++ (("section .bss\n") ++ (b
        ++ (("section .rodata\n") ++ (r
        ++ ("display_char:\ndb `Line %u display (Char type): %c\\n\\0`\n"))))))) :=
  C7_output_section_layout (fun _ : Unit => ("")) []

/-- Concrete instantiation of `C8_parameter_lowering` on a fresh generator
with `store_in` 3 and `param_number` 2. -/
theorem C8_parameter_lowering_witness :
    codegen.handle_instruction (codegen.GenerateElf64.new Unit) (.parameter 3 2)
      = { codegen.GenerateElf64.new Unit with
          text_section := (codegen.GenerateElf64.new Unit).text_section ++
            [.Mov (.Register .Rax)
                (.AddressDisplaced (.Register .StackPointer) (16 + 2 * 8)),
             .Mov (.Address (.Label (codegen.var_label 3))) (.Register .Rax)] } :=
  C8_parameter_lowering.1 (codegen.GenerateElf64.new Unit) 3 2
